import Mathlib

/-!
DBMonitor: formal model of `getJobDetails.py`.

A shallow embedding of the batch-job reconciliation script. The script
loads an expected-schedule CSV, queries grouped execution records from a
database, and compares them, printing diagnostics and accumulating a
failure count that becomes the process exit status.

Modelling conventions:
* `print` calls are collected into a `List String`, in order.
* Python exceptions raised by the modelled code (`int()` on a non-numeric
  string, list indexing out of range, missing file, `next()` on an empty
  iterator) are modelled by `Except PyErr`.
* Database rows `(job_name, status, count)` are `ExecutionRecord`s; the
  `count(*)` column arrives from SQL as a Python `int`, modelled as `Int`.
* The CSV file is modelled as `Option (List (List String))`: `none` for a
  missing file, otherwise the rows produced by `csv.reader`.
-/

set_option autoImplicit false

namespace DBMonitor

/-- Python exceptions that the modelled code can raise. -/
inductive PyErr where
  /-- `ValueError` from `int(s)` on a string that is not an integer literal;
  carries the offending string. -/
  | valueError : String → PyErr
  /-- `IndexError` from `row[i]` with `i` out of range. -/
  | indexError : PyErr
  /-- `FileNotFoundError` from `open()` on a missing file. -/
  | fileNotFoundError : PyErr
  /-- `StopIteration` from `next(csv_reader)` on an empty file. -/
  | stopIteration : PyErr
deriving Repr, DecidableEq

/-- One row of the grouped execution query: `(job_name, status, execution_count)`. -/
structure ExecutionRecord where
  job_name : String
  status : String
  execution_count : Int
deriving Repr, DecidableEq

/-- Strip whitespace from both ends of a character list (the stripping done
by Python `int(s)` before parsing). -/
def trimChars (cs : List Char) : List Char :=
  ((cs.dropWhile Char.isWhitespace).reverse.dropWhile Char.isWhitespace).reverse

/-- Decimal value of a digit list, most significant first. -/
def digitsToNat (cs : List Char) : Nat :=
  cs.foldl (fun acc c => acc * 10 + (c.toNat - 48)) 0

/-- Python `int(s)` on a string: strips surrounding whitespace, accepts an
optional sign followed by one or more decimal digits; any other string
raises `ValueError` (modelled as `none`). -/
def pyInt (s : String) : Option Int :=
  let t := trimChars s.data
  match t with
  | '-' :: rest =>
    if !rest.isEmpty && rest.all Char.isDigit then
      some (-(digitsToNat rest : Int))
    else none
  | '+' :: rest =>
    if !rest.isEmpty && rest.all Char.isDigit then
      some (digitsToNat rest : Int)
    else none
  | t' =>
    if !t'.isEmpty && t'.all Char.isDigit then
      some (digitsToNat t' : Int)
    else none

/-- Split a character list at every comma; the empty list yields one empty
part, adjacent commas yield empty parts. -/
def splitCommaChars : List Char → List (List Char)
  | [] => [[]]
  | c :: rest =>
    if c = ',' then [] :: splitCommaChars rest
    else
      match splitCommaChars rest with
      | [] => [[c]]
      | h :: t => (c :: h) :: t

/-- Python `s.split(",")` with an explicit separator: always at least one
part; `""` yields `[""]`. -/
def pySplitComma (s : String) : List String :=
  (splitCommaChars s.data).map String.mk

/-- Python `row[i]` on a list: the element, or `IndexError` when out of range. -/
def pyGet (row : List String) (i : Nat) : Except PyErr String :=
  match row.get? i with
  | some v => .ok v
  | none => .error .indexError

/-- The inner loop of `check_job_status` (source lines 103-112): iterate the
records matching one expected check. A `COMPLETED` record compares
`int(condition)` with the execution count (match prints a success line;
mismatch prints a diagnostic and adds 1); any other status prints a
diagnostic and adds 1. `int(condition)` on a non-integer string raises. -/
def process_records (job_name condition date_match : String) :
    List ExecutionRecord → List String × Except PyErr Nat
  | [] => ([], .ok 0)
  | data :: rest =>
    if data.status == "COMPLETED" then
      match pyInt condition with
      | none => ([], .error (.valueError condition))
      | some v =>
        if v == data.execution_count then
          let r := process_records job_name condition date_match rest
          (("This job completed successfully: " ++ job_name) :: r.1, r.2)
        else
          let r := process_records job_name condition date_match rest
          (("Job count mismatch for " ++ job_name ++ ": Expected " ++ condition
              ++ ", Found " ++ toString data.execution_count) :: r.1,
            r.2.map (· + 1))
    else
      let r := process_records job_name condition date_match rest
      (("This job launched on " ++ date_match
          ++ " but did not complete successfully: " ++ job_name) :: r.1,
        r.2.map (· + 1))

/-- The body of `check_job_status` for a single expected check (source lines
97-112): select the records whose `job_name` matches; when none match,
print the NOT_LAUNCHED diagnostic and add 1; otherwise run the inner loop. -/
def check_one (job_name condition date_match : String)
    (db_details : List ExecutionRecord) : List String × Except PyErr Nat :=
  let matching_db := db_details.filter (fun data => data.job_name == job_name)
  if matching_db.isEmpty then
    (["This job was not launched on " ++ date_match ++ ": " ++ job_name], .ok 1)
  else
    process_records job_name condition date_match matching_db

/-- `check_job_status(job_details, db_details, date_match)` (source lines
84-113): evaluate every expected check in order against the records,
accumulating prints and the failure count; a raised exception aborts the
remaining checks (prints emitted so far are kept). -/
def check_job_status :
    List (String × String) → List ExecutionRecord → String →
    List String × Except PyErr Nat
  | [], _, _ => ([], .ok 0)
  | (job_name, condition) :: rest, db_details, date_match =>
    let r := check_one job_name condition date_match db_details
    match r.2 with
    | .error e => (r.1, .error e)
    | .ok n =>
      let r2 := check_job_status rest db_details date_match
      (r.1 ++ r2.1, r2.2.map (fun m => n + m))

/-- `process_stage_details(stage_details)` (source lines 68-82): for each
`(job_name, parts)` row, split `parts` on `","` (Python `str.split(",")`,
which yields `[""]` on the empty string) and append one `(job_name, part)`
pair per part, in order, with no deduplication. -/
def process_stage_details : List (String × String) → List (String × String)
  | [] => []
  | row :: rest =>
    ((pySplitComma row.2).map (fun part => (row.1, part)))
      ++ process_stage_details rest

/-- The argument expression of source lines 153 and 183,
`[(job, time_day) for job, time_day in specific_day_jobs]`: the tuple
pattern binds both names per element, so this is an identity refold. -/
def specific_day_args (specific_day_jobs : List (String × String)) :
    List (String × String) :=
  specific_day_jobs.map (fun p => match p with | (job, time_day) => (job, time_day))

/-- The argument expression of source lines 154 and 184,
`[(job, weekday_str) for job, weekday_str in specific_week_jobs]`: in
Python 3 the comprehension's tuple pattern rebinds `weekday_str`,
shadowing the outer `weekday_str` computed at line 122, exactly as the
inner `match` pattern below shadows the second parameter. -/
def specific_week_args (specific_week_jobs : List (String × String))
    (weekday_str : String) : List (String × String) :=
  specific_week_jobs.map (fun p => match p with | (job, weekday_str) => (job, weekday_str))

/-- Source line 122: `WeekDay(yesterday.weekday()).name.capitalize()` —
the capitalized name of the `WeekDay` enum member for a weekday index. -/
def weekday_label : Fin 7 → String
  | 0 => "Monday"
  | 1 => "Tuesday"
  | 2 => "Wednesday"
  | 3 => "Thursday"
  | 4 => "Friday"
  | 5 => "Saturday"
  | 6 => "Sunday"

/-- `load_csv_data(filepath)` (source lines 53-66): `open()` raises
`FileNotFoundError` on a missing file; `next(csv_reader)` raises
`StopIteration` on an empty file; otherwise every row after the header is
returned unchanged — the function performs no column-count validation. -/
def load_csv_data (file : Option (List (List String))) :
    Except PyErr (List (List String)) :=
  match file with
  | none => .error .fileNotFoundError
  | some [] => .error .stopIteration
  | some (_ :: rest) => .ok rest

/-- Source line 139: `[(row[0], row[2]) for row in csv_data if row[1] == 'YES']`.
Per row, `row[1]` is evaluated first (raising `IndexError` when absent);
`row[0]` and `row[2]` only for rows whose flag is `'YES'`. -/
def hourly_of : List (List String) → Except PyErr (List (String × String))
  | [] => .ok []
  | row :: rest => do
    let b ← pyGet row 1
    if b == "YES" then
      let j ← pyGet row 0
      let c ← pyGet row 2
      let tl ← hourly_of rest
      return (j, c) :: tl
    else
      hourly_of rest

/-- Source line 140: `[row[0] for row in csv_data if row[3] == 'YES']`. -/
def daily_of : List (List String) → Except PyErr (List String)
  | [] => .ok []
  | row :: rest => do
    let b ← pyGet row 3
    if b == "YES" then
      let j ← pyGet row 0
      let tl ← daily_of rest
      return j :: tl
    else
      daily_of rest

/-- Source line 141: `[(row[0], row[5]) for row in csv_data if row[4] == 'YES']`. -/
def stage_day_of : List (List String) → Except PyErr (List (String × String))
  | [] => .ok []
  | row :: rest => do
    let b ← pyGet row 4
    if b == "YES" then
      let j ← pyGet row 0
      let c ← pyGet row 5
      let tl ← stage_day_of rest
      return (j, c) :: tl
    else
      stage_day_of rest

/-- Source line 142: `[(row[0], row[7]) for row in csv_data if row[6] == 'YES']`. -/
def stage_week_of : List (List String) → Except PyErr (List (String × String))
  | [] => .ok []
  | row :: rest => do
    let b ← pyGet row 6
    if b == "YES" then
      let j ← pyGet row 0
      let c ← pyGet row 7
      let tl ← stage_week_of rest
      return (j, c) :: tl
    else
      stage_week_of rest

/-- The four check lists derived from one CSV file (source lines 139-142). -/
structure ScheduleCats where
  hourly : List (String × String)
  daily : List String
  stage_day : List (String × String)
  stage_week : List (String × String)
deriving Repr, DecidableEq

/-- The categorization block of `prepare_summary` (source lines 139-142 and
171-174), evaluated in source order. -/
def categorize (csv_data : List (List String)) : Except PyErr ScheduleCats := do
  let hourly ← hourly_of csv_data
  let daily ← daily_of csv_data
  let stage_day ← stage_day_of csv_data
  let stage_week ← stage_week_of csv_data
  return ⟨hourly, daily, stage_day, stage_week⟩

/-- Lift one `check_job_status` call into the `prepare_summary` pipeline:
a raised exception propagates out of `prepare_summary` (the prints already
emitted are not observable through the exception, so they are dropped). -/
def liftCheck (r : List String × Except PyErr Nat) :
    Except PyErr (List String × Nat) :=
  match r.2 with
  | .error e => .error e
  | .ok n => .ok (r.1, n)

/-- The pure core of `prepare_summary` (source lines 115-189), taking the
already-fetched inputs: the two CSV files' rows, the two windows' grouped
execution records, and yesterday's weekday index. Returns the prints, the
total failure count, and the process exit status (source lines 186-189:
`print(result)` then `exit(1)` when `result >= 1`, implicit `0` otherwise). -/
def prepare_summary_core (csv_data csv_data_today : List (List String))
    (db_yesterday_details db_today_details : List ExecutionRecord)
    (yesterday_weekday : Fin 7) :
    Except PyErr (List String × Nat × Nat) := do
  let weekday_str := weekday_label yesterday_weekday
  let cats ← categorize csv_data
  let specific_day_jobs := process_stage_details cats.stage_day
  let specific_week_jobs := process_stage_details cats.stage_week
  let (p1, r1) ← liftCheck
    (check_job_status cats.hourly db_yesterday_details "Yesterday")
  let (p2, r2) ← liftCheck
    (check_job_status (cats.daily.map (fun job => (job, "")))
      db_yesterday_details "Yesterday")
  let (p3, r3) ← liftCheck
    (check_job_status (specific_day_args specific_day_jobs)
      db_yesterday_details "Yesterday")
  let (p4, r4) ← liftCheck
    (check_job_status (specific_week_args specific_week_jobs weekday_str)
      db_yesterday_details "Yesterday")
  let catsT ← categorize csv_data_today
  let specific_day_jobs_today := process_stage_details catsT.stage_day
  let specific_week_jobs_today := process_stage_details catsT.stage_week
  let (p5, r5) ← liftCheck
    (check_job_status catsT.hourly db_today_details "Today")
  let (p6, r6) ← liftCheck
    (check_job_status (catsT.daily.map (fun job => (job, "")))
      db_today_details "Today")
  let (p7, r7) ← liftCheck
    (check_job_status (specific_day_args specific_day_jobs_today)
      db_today_details "Today")
  let (p8, r8) ← liftCheck
    (check_job_status (specific_week_args specific_week_jobs_today weekday_str)
      db_today_details "Today")
  let result := r1 + r2 + r3 + r4 + r5 + r6 + r7 + r8
  let prints := p1 ++ p2 ++ p3 ++ p4 ++ p5 ++ p6 ++ p7 ++ p8 ++ [toString result]
  return (prints, result, if result ≥ 1 then 1 else 0)

/-! ## Helper lemmas -/

/-- A single record whose `job_name` matches the check is kept by the
selection filter of `check_job_status`. -/
lemma filter_singleton_match (j s : String) (n : Int) :
    [ExecutionRecord.mk j s n].filter (fun data => data.job_name == j)
      = [ExecutionRecord.mk j s n] := by
  simp [List.filter]

/-! ## Claims -/

/-- C1: for an expected check `(j, c)` whose condition parses as the integer
`v`, a matching record with status `COMPLETED` and count `n` contributes 0
failures when `v = n` (a success line is printed) and exactly 1 failure when
`v ≠ n`, with a diagnostic containing both the expected condition string and
the found count. -/
theorem claim1_completed_count_comparison (j c d : String) (v n : Int)
    (h : pyInt c = some v) :
    check_job_status [(j, c)] [ExecutionRecord.mk j "COMPLETED" n] d =
      (if v = n then
        (["This job completed successfully: " ++ j], Except.ok 0)
      else
        (["Job count mismatch for " ++ j ++ ": Expected " ++ c
            ++ ", Found " ++ toString n], Except.ok 1)) := by
  by_cases hv : v = n
  · simp [check_job_status, check_one, filter_singleton_match, process_records,
      h, hv, Except.map]
  · simp [check_job_status, check_one, filter_singleton_match, process_records,
      h, hv, Except.map]

/-- Witness for C1 at a concrete mismatching input: condition `"5"`,
count `3`. -/
theorem claim1_completed_count_comparison_witness :
    pyInt "5" = some 5 ∧
    check_job_status [("job1", "5")] [ExecutionRecord.mk "job1" "COMPLETED" 3]
        "Yesterday"
      = (["Job count mismatch for job1: Expected 5, Found 3"], Except.ok 1) := by
  refine ⟨by decide, ?_⟩
  have h := claim1_completed_count_comparison "job1" "5" "Yesterday" 5 3 (by decide)
  rw [if_neg (by decide)] at h
  exact h

/-- C2: an expected check whose `job_name` matches no execution record
contributes exactly 1 failure, and the only print is the NOT_LAUNCHED
diagnostic naming the window label and the job name. -/
theorem claim2_not_launched (j c d : String) (db : List ExecutionRecord)
    (h : ∀ r ∈ db, r.job_name ≠ j) :
    check_job_status [(j, c)] db d
      = (["This job was not launched on " ++ d ++ ": " ++ j], Except.ok 1) := by
  have hfil : db.filter (fun data => data.job_name == j) = [] := by
    rw [List.filter_eq_nil_iff]
    intro a ha
    simpa using h a ha
  simp [check_job_status, check_one, hfil, Except.map]

/-- Witness for C2: a record for a different job does not stop the
NOT_LAUNCHED failure. -/
theorem claim2_not_launched_witness :
    check_job_status [("job1", "2")] [ExecutionRecord.mk "other" "COMPLETED" 2]
        "Yesterday"
      = (["This job was not launched on Yesterday: job1"], Except.ok 1) := by
  have h := claim2_not_launched "job1" "2" "Yesterday"
    [ExecutionRecord.mk "other" "COMPLETED" 2] (by decide)
  exact h

/-- The failure count of the inner record loop, unfolded one record at a
time, independently of the print components. -/
lemma process_records_snd_cons (j c d : String) (data : ExecutionRecord)
    (rest : List ExecutionRecord) :
    (process_records j c d (data :: rest)).2
      = (if data.status == "COMPLETED" then
          match pyInt c with
          | none => Except.error (PyErr.valueError c)
          | some v =>
            if v == data.execution_count then (process_records j c d rest).2
            else (process_records j c d rest).2.map (· + 1)
        else
          (process_records j c d rest).2.map (· + 1)) := by
  by_cases hs : data.status == "COMPLETED"
  · cases hp : pyInt c with
    | none => simp [process_records, hs, hp]
    | some v =>
      by_cases hv : v == data.execution_count
      · simp [process_records, hs, hp, hv]
      · simp [process_records, hs, hp, hv]
  · simp [process_records, hs]

/-- The failure count of the inner record loop is additive over the record
list: records are evaluated independently, so contributions sum. -/
lemma process_records_snd_append (j c d : String) (l1 l2 : List ExecutionRecord)
    (a : Nat) (h1 : (process_records j c d l1).2 = Except.ok a) :
    (process_records j c d (l1 ++ l2)).2
      = (process_records j c d l2).2.map (fun m => a + m) := by
  induction l1 generalizing a with
  | nil =>
    simp only [process_records] at h1
    cases h1
    cases hr : (process_records j c d l2).2 <;>
      simp [process_records, hr, Except.map]
  | cons data rest ih =>
    rw [process_records_snd_cons] at h1
    rw [List.cons_append, process_records_snd_cons]
    by_cases hs : data.status == "COMPLETED"
    · rw [if_pos hs] at h1 ⊢
      cases hp : pyInt c with
      | none =>
        rw [hp] at h1
        simp at h1
      | some v =>
        rw [hp] at h1
        dsimp only at h1
        show (if (v == data.execution_count) = true
            then (process_records j c d (rest ++ l2)).2
            else Except.map (· + 1) (process_records j c d (rest ++ l2)).2)
          = Except.map (fun m => a + m) (process_records j c d l2).2
        by_cases hv : v == data.execution_count
        · rw [if_pos hv] at h1 ⊢
          exact ih a h1
        · rw [if_neg hv] at h1 ⊢
          cases hr : (process_records j c d rest).2 with
          | error e => rw [hr] at h1; simp [Except.map] at h1
          | ok b =>
            rw [hr] at h1
            simp only [Except.map] at h1
            cases h1
            rw [ih b hr]
            cases hr2 : (process_records j c d l2).2 with
            | error e => simp [Except.map]
            | ok k =>
              simp only [Except.map, Except.ok.injEq]
              omega
    · rw [if_neg hs] at h1 ⊢
      cases hr : (process_records j c d rest).2 with
      | error e => rw [hr] at h1; simp [Except.map] at h1
      | ok b =>
        rw [hr] at h1
        simp only [Except.map] at h1
        cases h1
        rw [ih b hr]
        cases hr2 : (process_records j c d l2).2 with
        | error e => simp [Except.map]
        | ok k =>
          simp only [Except.map, Except.ok.injEq]
          omega

/-- Two records whose `job_name` matches the check are both kept by the
selection filter. -/
lemma filter_pair_match (j s1 s2 : String) (n1 n2 : Int) :
    [ExecutionRecord.mk j s1 n1, ExecutionRecord.mk j s2 n2].filter
        (fun data => data.job_name == j)
      = [ExecutionRecord.mk j s1 n1, ExecutionRecord.mk j s2 n2] := by
  simp [List.filter]

/-- C3: every matching record is evaluated independently, not just the
first. A single record with any non-`COMPLETED` status contributes exactly 1
failure regardless of its count; a job with two records — one `COMPLETED`
whose count equals the parsed condition and one `FAILED` — contributes
exactly 1 failure (from the `FAILED` record); and in general the inner
loop's failure count is the sum of independent per-record contributions. -/
theorem claim3_per_record_evaluation (j c d s : String) (v n m cnt : Int)
    (hv : pyInt c = some v) (hs : s ≠ "COMPLETED") :
    (check_job_status [(j, c)] [ExecutionRecord.mk j s cnt] d).2 = Except.ok 1
    ∧ (v = n →
        (check_job_status [(j, c)]
            [ExecutionRecord.mk j "COMPLETED" n, ExecutionRecord.mk j "FAILED" m]
            d).2
          = Except.ok 1)
    ∧ (∀ (l1 l2 : List ExecutionRecord) (a : Nat),
        (process_records j c d l1).2 = Except.ok a →
        (process_records j c d (l1 ++ l2)).2
          = (process_records j c d l2).2.map (fun b => a + b)) := by
  refine ⟨?_, ?_, fun l1 l2 a h1 => process_records_snd_append j c d l1 l2 a h1⟩
  · simp [check_job_status, check_one, filter_singleton_match, process_records,
      hs, Except.map]
  · intro hn
    subst hn
    simp [check_job_status, check_one, filter_pair_match, process_records,
      hv, Except.map]

/-- Witness for C3: condition `"4"`; a lone `FAILED` record with count 7
gives 1 failure, and a `COMPLETED` record with count 4 plus a `FAILED`
record also give exactly 1 failure. -/
theorem claim3_per_record_evaluation_witness :
    (check_job_status [("job1", "4")] [ExecutionRecord.mk "job1" "FAILED" 7]
        "Yesterday").2 = Except.ok 1
    ∧ (check_job_status [("job1", "4")]
        [ExecutionRecord.mk "job1" "COMPLETED" 4,
          ExecutionRecord.mk "job1" "FAILED" 1] "Yesterday").2 = Except.ok 1 :=
  ⟨(claim3_per_record_evaluation "job1" "4" "Yesterday" "FAILED" 4 4 1 7
      (by decide) (by decide)).1,
    (claim3_per_record_evaluation "job1" "4" "Yesterday" "FAILED" 4 4 1 7
      (by decide) (by decide)).2.1 rfl⟩

/-- C4 counterexample: the comprehension at source lines 154/184 rebinds
`weekday_str`, so with a computed weekday label `weekday_label 1`
(`"Tuesday"`) and a schedule-file value `"Monday"`, the condition passed to
`check_job_status` is the schedule-file value, not the computed label. -/
theorem claim4_weekday_counterexample :
    specific_week_args [("job1", "Monday")] (weekday_label 1)
        = [("job1", "Monday")]
    ∧ specific_week_args [("job1", "Monday")] (weekday_label 1)
        ≠ [("job1", weekday_label 1)] := by
  exact ⟨rfl, by decide⟩

/-- C4 amended: for every specific-weekday check the condition passed into
reconcile is the value taken from the schedule file; the computed weekday
label is ignored, because the comprehension's tuple pattern shadows it. -/
theorem claim4_weekday_amended (jobs : List (String × String)) (w : String) :
    specific_week_args jobs w = jobs := by
  simp [specific_week_args]

/-- C8: a schedule entry whose condition list splits into N values expands
into exactly those N checks, one per value in order, prepended to the
expansion of the remaining entries; repeated values produce repeated
checks (shown on `"a,b,a"`). -/
theorem claim8_expansion_fanout (j s : String) (l : List (String × String)) :
    (process_stage_details ((j, s) :: l)).take (pySplitComma s).length
        = (pySplitComma s).map (fun part => (j, part))
    ∧ (process_stage_details ((j, s) :: l)).length
        = (pySplitComma s).length + (process_stage_details l).length
    ∧ process_stage_details [("job1", "a,b,a")]
        = [("job1", "a"), ("job1", "b"), ("job1", "a")] := by
  refine ⟨?_, by simp [process_stage_details], by decide⟩
  have hlen : (pySplitComma s).length
      = ((pySplitComma s).map (fun part => (j, part))).length :=
    (List.length_map _ _).symm
  show ((pySplitComma s).map (fun part => (j, part))
      ++ process_stage_details l).take (pySplitComma s).length
    = (pySplitComma s).map (fun part => (j, part))
  rw [hlen, List.take_left]

/-- C10: an empty condition value still yields exactly one expanded check
(splitting `""` on commas gives one empty part); that check is reconciled
like any other — with no matching record it fails as NOT_LAUNCHED, and
against a `COMPLETED` record the integer conversion of `""` raises. -/
theorem claim10_empty_condition_check (j d : String) (n : Int) :
    process_stage_details [(j, "")] = [(j, "")]
    ∧ (check_job_status [(j, "")] [] d).2 = Except.ok 1
    ∧ (check_job_status [(j, "")] [ExecutionRecord.mk j "COMPLETED" n] d).2
        = Except.error (PyErr.valueError "") := by
  have hsplit : pySplitComma "" = [""] := by decide
  have hp : pyInt "" = none := by decide
  refine ⟨?_, ?_, ?_⟩
  · simp [process_stage_details, hsplit]
  · simp [check_job_status, check_one, Except.map]
  · simp [check_job_status, check_one, filter_singleton_match, process_records,
      hp]

/-- If some record in the list has status `COMPLETED` and the condition does
not parse as an integer, the inner record loop raises `ValueError`. -/
lemma process_records_completed_error (j c d : String)
    (recs : List ExecutionRecord) (hc : pyInt c = none)
    (hr : ∃ r ∈ recs, r.status = "COMPLETED") :
    (process_records j c d recs).2 = Except.error (PyErr.valueError c) := by
  induction recs with
  | nil => simp at hr
  | cons data rest ih =>
    rw [process_records_snd_cons]
    by_cases hs : data.status == "COMPLETED"
    · rw [if_pos hs, hc]
    · rw [if_neg hs]
      obtain ⟨r, hrmem, hrst⟩ := hr
      rcases List.mem_cons.mp hrmem with heq | hmem
      · exact absurd (by rw [← heq, hrst]; simp) hs
      · rw [ih ⟨r, hmem, hrst⟩]
        simp [Except.map]

/-- C5: when the condition string does not parse as an integer and at least
one matching record has status `COMPLETED`, reconcile raises (the `int()`
conversion fails) instead of returning a failure count. -/
theorem claim5_nonnumeric_condition_raises (j c d : String)
    (db : List ExecutionRecord) (hc : pyInt c = none)
    (hmatch : ∃ r ∈ db, r.job_name = j ∧ r.status = "COMPLETED") :
    (check_job_status [(j, c)] db d).2 = Except.error (PyErr.valueError c) := by
  obtain ⟨r, hrmem, hrj, hrst⟩ := hmatch
  have hrfil : r ∈ db.filter (fun data => data.job_name == j) :=
    List.mem_filter.mpr ⟨hrmem, by simp [hrj]⟩
  have hie : (db.filter (fun data => data.job_name == j)).isEmpty = false := by
    rcases hq : db.filter (fun data => data.job_name == j) with _ | _
    · rw [hq] at hrfil; simp at hrfil
    · rw [hq]; rfl
  have hco : check_one j c d db
      = process_records j c d (db.filter (fun data => data.job_name == j)) := by
    simp [check_one, hie]
  have herr := process_records_completed_error j c d
    (db.filter (fun data => data.job_name == j)) hc ⟨r, hrfil, hrst⟩
  simp only [check_job_status, hco, herr]

/-- Witness for C5: condition `"Monday"` with a `FAILED` record before the
`COMPLETED` one. -/
theorem claim5_nonnumeric_condition_raises_witness :
    (check_job_status [("job1", "Monday")]
        [ExecutionRecord.mk "job1" "FAILED" 1,
          ExecutionRecord.mk "job1" "COMPLETED" 2] "Yesterday").2
      = Except.error (PyErr.valueError "Monday") :=
  claim5_nonnumeric_condition_raises "job1" "Monday" "Yesterday"
    [ExecutionRecord.mk "job1" "FAILED" 1,
      ExecutionRecord.mk "job1" "COMPLETED" 2]
    (by decide) (by decide)

/-- One-step unfolding of `check_job_status` on a non-empty check list. -/
lemma check_job_status_cons (j c d : String) (rest : List (String × String))
    (db : List ExecutionRecord) :
    check_job_status ((j, c) :: rest) db d
      = (match (check_one j c d db).2 with
          | Except.error e => ((check_one j c d db).1, Except.error e)
          | Except.ok n =>
            ((check_one j c d db).1 ++ (check_job_status rest db d).1,
              (check_job_status rest db d).2.map (fun m => n + m))) := rfl

/-- The outer check loop is additive over the check list when no exception
is raised: prints concatenate and failure counts add. -/
lemma check_job_status_append (db : List ExecutionRecord) (d : String)
    (l2 : List (String × String)) (p2 : List String) (n2 : Nat)
    (h2 : check_job_status l2 db d = (p2, Except.ok n2)) :
    ∀ (l1 : List (String × String)) (p1 : List String) (n1 : Nat),
      check_job_status l1 db d = (p1, Except.ok n1) →
      check_job_status (l1 ++ l2) db d = (p1 ++ p2, Except.ok (n1 + n2)) := by
  intro l1
  induction l1 with
  | nil =>
    intro p1 n1 h1
    simp only [check_job_status, Prod.mk.injEq] at h1
    obtain ⟨hp, hn⟩ := h1
    injection hn with hn
    subst hp hn
    simpa using h2
  | cons jc rest ih =>
    obtain ⟨j, c⟩ := jc
    intro p1 n1 h1
    rw [check_job_status_cons] at h1
    rw [List.cons_append, check_job_status_cons]
    cases hr : (check_one j c d db).2 with
    | error e =>
      rw [hr] at h1
      simp at h1
    | ok n =>
      rw [hr] at h1
      dsimp only at h1 ⊢
      cases hrc : (check_job_status rest db d).2 with
      | error e =>
        rw [hrc] at h1
        simp [Except.map] at h1
      | ok m =>
        rw [hrc] at h1
        simp only [Except.map, Prod.mk.injEq, Except.ok.injEq] at h1
        obtain ⟨hp, hn⟩ := h1
        have hrest : check_job_status rest db d
            = ((check_job_status rest db d).1, Except.ok m) := by
          rw [← hrc]
        rw [ih (check_job_status rest db d).1 m hrest]
        dsimp only
        rw [← hp, ← hn]
        simp [Except.map, List.append_assoc, Nat.add_assoc]

/-- C9: reconcile never short-circuits across checks — evaluating the
concatenation of two check lists yields the concatenated prints and the sum
of the two failure counts, and the empty check list yields 0 failures. -/
theorem claim9_additivity (db : List ExecutionRecord) (d : String)
    (l1 l2 : List (String × String)) (p1 p2 : List String) (n1 n2 : Nat)
    (h1 : check_job_status l1 db d = (p1, Except.ok n1))
    (h2 : check_job_status l2 db d = (p2, Except.ok n2)) :
    check_job_status (l1 ++ l2) db d = (p1 ++ p2, Except.ok (n1 + n2))
    ∧ check_job_status ([] : List (String × String)) db d = ([], Except.ok 0) :=
  ⟨check_job_status_append db d l2 p2 n2 h2 l1 p1 n1 h1, rfl⟩

/-- Witness for C9: a NOT_LAUNCHED check concatenated with a matching
COMPLETED check. -/
theorem claim9_additivity_witness :
    check_job_status [("ghost", "1"), ("job1", "2")]
        [ExecutionRecord.mk "job1" "COMPLETED" 2] "Today"
      = (["This job was not launched on Today: ghost",
          "This job completed successfully: job1"], Except.ok 1) :=
  (claim9_additivity [ExecutionRecord.mk "job1" "COMPLETED" 2] "Today"
    [("ghost", "1")] [("job1", "2")]
    ["This job was not launched on Today: ghost"]
    ["This job completed successfully: job1"] 1 0
    rfl rfl).1

/-- C6: when both reconciliation passes run without raising, the
orchestrator's total failure count is the sum of the eight per-category
check results across the two passes, that total is the last line printed,
and the process exit status is 1 when the total is at least 1 and 0
otherwise. -/
theorem claim6_exit_aggregation
    (csv1 csv2 : List (List String)) (db_y db_t : List ExecutionRecord)
    (yday : Fin 7) (cats1 cats2 : ScheduleCats)
    (p1 p2 p3 p4 p5 p6 p7 p8 : List String)
    (a1 a2 a3 a4 b1 b2 b3 b4 : Nat)
    (hc1 : categorize csv1 = Except.ok cats1)
    (hc2 : categorize csv2 = Except.ok cats2)
    (h1 : check_job_status cats1.hourly db_y "Yesterday" = (p1, Except.ok a1))
    (h2 : check_job_status (cats1.daily.map (fun job => (job, "")))
        db_y "Yesterday" = (p2, Except.ok a2))
    (h3 : check_job_status (specific_day_args (process_stage_details cats1.stage_day))
        db_y "Yesterday" = (p3, Except.ok a3))
    (h4 : check_job_status
        (specific_week_args (process_stage_details cats1.stage_week)
          (weekday_label yday)) db_y "Yesterday" = (p4, Except.ok a4))
    (h5 : check_job_status cats2.hourly db_t "Today" = (p5, Except.ok b1))
    (h6 : check_job_status (cats2.daily.map (fun job => (job, "")))
        db_t "Today" = (p6, Except.ok b2))
    (h7 : check_job_status (specific_day_args (process_stage_details cats2.stage_day))
        db_t "Today" = (p7, Except.ok b3))
    (h8 : check_job_status
        (specific_week_args (process_stage_details cats2.stage_week)
          (weekday_label yday)) db_t "Today" = (p8, Except.ok b4)) :
    prepare_summary_core csv1 csv2 db_y db_t yday
      = Except.ok
          (p1 ++ p2 ++ p3 ++ p4 ++ p5 ++ p6 ++ p7 ++ p8
              ++ [toString (a1 + a2 + a3 + a4 + b1 + b2 + b3 + b4)],
            a1 + a2 + a3 + a4 + b1 + b2 + b3 + b4,
            if a1 + a2 + a3 + a4 + b1 + b2 + b3 + b4 ≥ 1 then 1 else 0) := by
  simp [prepare_summary_core, hc1, hc2, liftCheck, h1, h2, h3, h4, h5, h6, h7,
    h8, bind, Except.bind, pure, Except.pure]

/-- Witness for C6: one expected hourly job, never launched, in the
yesterday pass: total 1, exit status 1, and "1" is printed last. -/
theorem claim6_exit_aggregation_witness :
    categorize [["job1", "YES", "2", "NO", "NO", "", "NO", ""]]
        = Except.ok (ScheduleCats.mk [("job1", "2")] [] [] [])
    ∧ prepare_summary_core [["job1", "YES", "2", "NO", "NO", "", "NO", ""]]
        [] [] [] 0
      = Except.ok (["This job was not launched on Yesterday: job1", "1"], 1, 1) := by
  refine ⟨rfl, ?_⟩
  have h := claim6_exit_aggregation
    [["job1", "YES", "2", "NO", "NO", "", "NO", ""]] [] [] [] 0
    (ScheduleCats.mk [("job1", "2")] [] [] []) (ScheduleCats.mk [] [] [] [])
    ["This job was not launched on Yesterday: job1"] [] [] [] [] [] [] []
    1 0 0 0 0 0 0 0
    rfl rfl rfl rfl rfl rfl rfl rfl rfl rfl
  simpa using h

/-- A list element fetched at an in-bounds index never raises `IndexError`. -/
lemma pyGet_ok (row : List String) (i : Nat) (h : i < row.length) :
    ∃ v, pyGet row i = Except.ok v := by
  cases hq : row.get? i with
  | some v => exact ⟨v, by simp only [pyGet, hq]⟩
  | none =>
    rw [List.get?_eq_none] at hq
    omega

/-- The hourly comprehension succeeds on rows of at least 8 columns. -/
lemma hourly_of_ok (rows : List (List String))
    (h : ∀ r ∈ rows, 8 ≤ r.length) : ∃ l, hourly_of rows = Except.ok l := by
  induction rows with
  | nil => exact ⟨[], rfl⟩
  | cons row rest ih =>
    have h8 := h row (List.mem_cons_self row rest)
    obtain ⟨tl, htl⟩ := ih (fun r hr => h r (List.mem_cons_of_mem _ hr))
    obtain ⟨b, hb⟩ := pyGet_ok row 1 (by omega)
    obtain ⟨j0, hj0⟩ := pyGet_ok row 0 (by omega)
    obtain ⟨c2, hc2⟩ := pyGet_ok row 2 (by omega)
    by_cases hbY : b == "YES"
    · exact ⟨(j0, c2) :: tl,
        by simp [hourly_of, hb, hj0, hc2, hbY, htl, bind, Except.bind, pure,
          Except.pure]⟩
    · exact ⟨tl,
        by simp [hourly_of, hb, hbY, htl, bind, Except.bind]⟩

/-- The daily comprehension succeeds on rows of at least 8 columns. -/
lemma daily_of_ok (rows : List (List String))
    (h : ∀ r ∈ rows, 8 ≤ r.length) : ∃ l, daily_of rows = Except.ok l := by
  induction rows with
  | nil => exact ⟨[], rfl⟩
  | cons row rest ih =>
    have h8 := h row (List.mem_cons_self row rest)
    obtain ⟨tl, htl⟩ := ih (fun r hr => h r (List.mem_cons_of_mem _ hr))
    obtain ⟨b, hb⟩ := pyGet_ok row 3 (by omega)
    obtain ⟨j0, hj0⟩ := pyGet_ok row 0 (by omega)
    by_cases hbY : b == "YES"
    · exact ⟨j0 :: tl,
        by simp [daily_of, hb, hj0, hbY, htl, bind, Except.bind, pure,
          Except.pure]⟩
    · exact ⟨tl, by simp [daily_of, hb, hbY, htl, bind, Except.bind]⟩

/-- The specific-day comprehension succeeds on rows of at least 8 columns. -/
lemma stage_day_of_ok (rows : List (List String))
    (h : ∀ r ∈ rows, 8 ≤ r.length) : ∃ l, stage_day_of rows = Except.ok l := by
  induction rows with
  | nil => exact ⟨[], rfl⟩
  | cons row rest ih =>
    have h8 := h row (List.mem_cons_self row rest)
    obtain ⟨tl, htl⟩ := ih (fun r hr => h r (List.mem_cons_of_mem _ hr))
    obtain ⟨b, hb⟩ := pyGet_ok row 4 (by omega)
    obtain ⟨j0, hj0⟩ := pyGet_ok row 0 (by omega)
    obtain ⟨c5, hc5⟩ := pyGet_ok row 5 (by omega)
    by_cases hbY : b == "YES"
    · exact ⟨(j0, c5) :: tl,
        by simp [stage_day_of, hb, hj0, hc5, hbY, htl, bind, Except.bind, pure,
          Except.pure]⟩
    · exact ⟨tl, by simp [stage_day_of, hb, hbY, htl, bind, Except.bind]⟩

/-- The specific-weekday comprehension succeeds on rows of at least 8
columns. -/
lemma stage_week_of_ok (rows : List (List String))
    (h : ∀ r ∈ rows, 8 ≤ r.length) : ∃ l, stage_week_of rows = Except.ok l := by
  induction rows with
  | nil => exact ⟨[], rfl⟩
  | cons row rest ih =>
    have h8 := h row (List.mem_cons_self row rest)
    obtain ⟨tl, htl⟩ := ih (fun r hr => h r (List.mem_cons_of_mem _ hr))
    obtain ⟨b, hb⟩ := pyGet_ok row 6 (by omega)
    obtain ⟨j0, hj0⟩ := pyGet_ok row 0 (by omega)
    obtain ⟨c7, hc7⟩ := pyGet_ok row 7 (by omega)
    by_cases hbY : b == "YES"
    · exact ⟨(j0, c7) :: tl,
        by simp [stage_week_of, hb, hj0, hc7, hbY, htl, bind, Except.bind, pure,
          Except.pure]⟩
    · exact ⟨tl, by simp [stage_week_of, hb, hbY, htl, bind, Except.bind]⟩

/-- Categorization succeeds on any row set whose rows all have at least the
8 columns of the documented layout. -/
lemma categorize_ok (rows : List (List String))
    (h : ∀ r ∈ rows, 8 ≤ r.length) : ∃ cats, categorize rows = Except.ok cats := by
  obtain ⟨l1, h1⟩ := hourly_of_ok rows h
  obtain ⟨l2, h2⟩ := daily_of_ok rows h
  obtain ⟨l3, h3⟩ := stage_day_of_ok rows h
  obtain ⟨l4, h4⟩ := stage_week_of_ok rows h
  exact ⟨ScheduleCats.mk l1 l2 l3 l4,
    by simp [categorize, h1, h2, h3, h4, bind, Except.bind, pure, Except.pure]⟩

/-- C7 counterexample: the loader does not fail on rows with fewer than the
documented 8 columns. `load_csv_data` returns a 1-column row untouched, and
even the downstream categorization accepts a 7-column row whose flags are
all unset — so no malformed-row failure occurs anywhere. -/
theorem claim7_loader_counterexample :
    load_csv_data (some [["header"], ["job"]]) = Except.ok [["job"]]
    ∧ categorize [["j", "NO", "", "NO", "NO", "", "NO"]]
        = Except.ok (ScheduleCats.mk [] [] [] []) :=
  ⟨rfl, rfl⟩

/-- C7 amended: `load_csv_data` raises only for a missing file
(`FileNotFoundError`) or an empty file (`StopIteration` from the
unconditional header skip); otherwise it returns every row after the header
with no column-count validation. Short rows fail later, if at all: the
categorization step raises `IndexError` when a row lacks an accessed column
(e.g. a 1-column row), while rows with at least 8 columns always pass. -/
theorem claim7_loader_amended :
    load_csv_data none = Except.error PyErr.fileNotFoundError
    ∧ load_csv_data (some []) = Except.error PyErr.stopIteration
    ∧ (∀ (hdr : List String) (rest : List (List String)),
        load_csv_data (some (hdr :: rest)) = Except.ok rest)
    ∧ (∀ rows : List (List String), (∀ r ∈ rows, 8 ≤ r.length) →
        ∃ cats, categorize rows = Except.ok cats)
    ∧ categorize [["j"]] = Except.error PyErr.indexError :=
  ⟨rfl, rfl, fun _ _ => rfl, fun rows h => categorize_ok rows h, rfl⟩

/-- Witness for C7 amended: a full 8-column row categorizes successfully. -/
theorem claim7_loader_amended_witness :
    ∃ cats, categorize [["a", "YES", "1", "NO", "NO", "", "NO", ""]]
      = Except.ok cats :=
  claim7_loader_amended.2.2.2.1 [["a", "YES", "1", "NO", "NO", "", "NO", ""]]
    (by decide)

end DBMonitor
